import Mathlib

set_option linter.unusedVariables false

/- Shallow embedding of the misinformation-telegram-crawler repository.

   The embedding covers the parts of crawler.py (crawl control loop, the three
   filtering strategies, the labeling workflow, resumable crawl state) and of
   models.py (message store rows, deduplication) that the verified claims are
   about.  Machine-level conventions:
   - Python `datetime` values are modelled as `Int` (only ordering and
     string-normalised equality are used by the code);
   - Python text is modelled as `String` where only equality is used and as
     `List Char` where substring containment is used;
   - a Python value that may be `None` is an `Option`;
   - a Python function that may raise is `Except`-valued;
   - the peewee database is an explicit record of row lists, with
     `create`/`save`/`delete` modelled as list operations. -/

/-- Handling status strings returned by the message handlers in crawler.py
("stop crawl", "message skipped", "message stored without labels",
"message stored with labels"). -/
inductive Status
  | stopCrawl
  | messageSkipped
  | storedWithoutLabels
  | storedWithLabels
deriving DecidableEq, Repr

/-- The fields of a telethon message that the crawler reads.  `message` is the
text (Python `None` possible), `isPoll` stands for `media` being present and of
type `MessageMediaPoll`, `channelId` is `peer_id.channel_id`. -/
structure TMessage where
  message : Option (List Char)
  date : Int
  isPoll : Bool
  id : Int
  channelId : Int
deriving DecidableEq, Repr

/-- The keys of the crawl-state dict that `handle_chat` and the skip/stop
predicates read or mutate (crawler.py).  `chats_not_searchable` is `none` while
the key is absent from the dict. -/
structure CrawlState where
  chats_to_search : List Int
  chats_searched : List Int
  chats_not_searchable : Option (List Int)
  current_chat_classified_messages_ids : List Int
  min_date : Option Int
  max_date : Option Int
  no_labeling_mode : Bool
deriving DecidableEq, Repr

/-- Python truthiness of a string: every non-empty string is truthy.  Needed to
model the condition `status == "message skipped" or "message stored without
labels"` in `BaselineCrawler.handle_chat`, whose right operand is a string
literal, not a comparison. -/
def pyTruthy (s : String) : Bool :=
  !s.isEmpty

/-- Python substring test helper: `beginsWith n h` holds when `h` starts with
`n` (used to define the `in` operator on strings). -/
def beginsWith : List Char → List Char → Bool
  | [], _ => true
  | _ :: _, [] => false
  | a :: as, b :: bs => a == b && beginsWith as bs

/-- Python's `needle in haystack` on strings: case-sensitive substring
containment. -/
def containsSub (needle : List Char) : List Char → Bool
  | [] => beginsWith needle []
  | c :: rest => beginsWith needle (c :: rest) || containsSub needle rest

/- ---------------------------------------------------------------------------
   models.py : TelegramMessage and deduplication
--------------------------------------------------------------------------- -/

/-- A row of the TelegramMessage table (models.py).  `chat_id` is the id of the
foreign-key `chat`; `hash` is the truncated content fingerprint and the primary
key. -/
structure TelegramMessage where
  chat_id : Int
  message_id : Int
  content : String
  url : Option String
  hash : String
  creation_date : String
  last_retrieved : String
  views : Option Int
  forwards : Option Int
deriving DecidableEq, Repr

/-- The field refresh performed on a detected duplicate in
`TelegramMessage.duplicate_exists` (models.py lines 174-179): content, url,
views, forwards and last_retrieved are taken from the freshly fetched message,
all other fields keep the stored values. -/
def updateDuplicate (d m : TelegramMessage) : TelegramMessage :=
  { d with
    content := m.content
    url := m.url
    views := m.views
    forwards := m.forwards
    last_retrieved := m.last_retrieved }

/-- `list(TelegramMessage.select().where(hash == h))[0]` — the first stored
message carrying the given fingerprint, if any. -/
def firstWithHash (db : List TelegramMessage) (h : String) : Option TelegramMessage :=
  (db.filter (fun r => r.hash == h)).head?

/-- `duplicate.save()` — peewee updates the row with the same primary key
(`hash`). -/
def saveByHash (db : List TelegramMessage) (upd : TelegramMessage) : List TelegramMessage :=
  db.map (fun r => if r.hash == upd.hash then upd else r)

/-- `TelegramMessage.duplicate_exists` (models.py lines 160-195): look for a
stored message with the same fingerprint; if its content is identical or chat
and message id both agree, refresh the stored row and report a duplicate;
otherwise raise the hash-collision exception; report no duplicate when the
fingerprint is unseen. -/
def TelegramMessage.duplicate_exists (db : List TelegramMessage) (m : TelegramMessage) :
    Except String (Bool × List TelegramMessage) :=
  match firstWithHash db m.hash with
  | none => Except.ok (false, db)
  | some duplicate =>
    if duplicate.content = m.content ∨
        (duplicate.chat_id = m.chat_id ∧ duplicate.message_id = m.message_id) then
      Except.ok (true, saveByHash db (updateDuplicate duplicate m))
    else
      Except.error "Hash collision!"

/- ---------------------------------------------------------------------------
   crawler.py : LabelingMessageHandler (labeling workflow) over the label store
--------------------------------------------------------------------------- -/

/-- A row of the MessageTopic table (models.py). -/
structure MessageTopicRow where
  chat : Int
  message_hash : String
  topic : Int
deriving DecidableEq, Repr

/-- A row of the MessageMisconception table (models.py); `misconception` is
nullable — a `none` row is the sentinel written for an explicitly empty
selection. -/
structure MessageMisconceptionRow where
  chat : Int
  message_hash : String
  misconception : Option Int
deriving DecidableEq, Repr

/-- A row of the MessageToSkip table (models.py). -/
structure MessageToSkipRow where
  message_hash : String
  chat : Int
deriving DecidableEq, Repr

/-- The tables of the sqlite database touched by the labeling workflow. -/
structure DB where
  messages : List TelegramMessage
  message_topics : List MessageTopicRow
  message_misconceptions : List MessageMisconceptionRow
  messages_to_skip : List MessageToSkipRow
deriving DecidableEq, Repr

/-- The option menu of `confirm_empty_selection` (crawler.py lines 224-230). -/
inductive MenuChoice
  | storeWithout
  | labelAgain
  | markForLater
  | skipMsg
  | stopRun
deriving DecidableEq, Repr

/-- One round of user interaction in `label_and_store_message`: the topics
selected, the misconception selections entered for the successive selected
topics, and the menu answer given if `confirm_empty_selection` is reached.
`get_topic_and_misconception_labels_from_user` prompts for misconceptions once
per selected topic, so the misconception selection is the concatenation of one
answer per selected topic (see `selectedMiscs`). -/
structure LabelRound where
  topics : List Int
  miscs : List (List Int)
  menu : MenuChoice
deriving DecidableEq, Repr

/-- `selected_misconceptions` as built by
`get_topic_and_misconception_labels_from_user` (crawler.py lines 311-327): one
selection is collected per selected topic and the results are concatenated.  In
particular an empty topic selection forces an empty misconception selection. -/
def selectedMiscs (r : LabelRound) : List Int :=
  (r.miscs.take r.topics.length).foldr (fun a b => a ++ b) []

/-- Outcome of `label_and_store_message`: a returned status string, the
`UnboundLocalError` raised when the local `status` is read without having been
assigned, or exhaustion of the modelled interaction script. -/
inductive LabelOutcome
  | done (s : Status)
  | unboundLocal
  | exhausted
deriving DecidableEq, Repr

/-- The storage block of `label_and_store_message` (crawler.py lines 170-203):
insert the message unless its fingerprint is already stored, otherwise delete
every topic and misconception label of that fingerprint; then create one
MessageTopic row per selected topic and one MessageMisconception row per
selected misconception, plus the null-misconception sentinel row when the
misconception selection is empty. -/
def LabelingMessageHandler.store_message_and_labels (msg : TelegramMessage)
    (selTopics selMiscs : List Int) (db : DB) : DB :=
  let db1 :=
    if (db.messages.filter (fun r => r.hash == msg.hash)).length = 0 then
      { db with messages := db.messages ++ [msg] }
    else
      { db with
        message_topics :=
          db.message_topics.filter (fun t => !(t.message_hash == msg.hash))
        message_misconceptions :=
          db.message_misconceptions.filter (fun t => !(t.message_hash == msg.hash)) }
  let db2 := { db1 with
    message_topics :=
      db1.message_topics ++
        selTopics.map (fun t => ({ chat := msg.chat_id, message_hash := msg.hash, topic := t } : MessageTopicRow)) }
  let db3 := { db2 with
    message_misconceptions :=
      db2.message_misconceptions ++
        selMiscs.map (fun mc => ({ chat := msg.chat_id, message_hash := msg.hash, misconception := some mc } : MessageMisconceptionRow)) }
  if selMiscs.length = 0 then
    { db3 with
      message_misconceptions :=
        db3.message_misconceptions ++ [⟨msg.chat_id, msg.hash, none⟩] }
  else db3

/-- The tail of `label_and_store_message` from the `if status == "stop crawl"`
check onwards (crawler.py lines 166-206): return without storing on a stop,
otherwise store message and labels and return the status string determined by
the misconception selection. -/
def LabelingMessageHandler.afterStatus (msg : TelegramMessage)
    (selTopics selMiscs : List Int) (s : Status) (db : DB) : LabelOutcome × DB :=
  if s = Status.stopCrawl then
    (LabelOutcome.done Status.stopCrawl, db)
  else
    let db2 := LabelingMessageHandler.store_message_and_labels msg selTopics selMiscs db
    if selMiscs.length > 0 then (LabelOutcome.done Status.storedWithLabels, db2)
    else (LabelOutcome.done Status.storedWithoutLabels, db2)

/-- `confirm_empty_selection` (crawler.py lines 208-261) without its
"label the message again?" branch, which re-runs `label_and_store_message` and
is therefore handled by the caller (signalled here with `none`).  The
marked-for-later branch additionally records the message in the
marked-for-later JSON index (a file outside the database, not modelled) and
then falls through to the skip branch. -/
def LabelingMessageHandler.confirm_empty_selection (msg : TelegramMessage)
    (choice : MenuChoice) (db : DB) : Option Status × DB :=
  match choice with
  | MenuChoice.storeWithout => (some Status.storedWithoutLabels, db)
  | MenuChoice.labelAgain => (none, db)
  | MenuChoice.markForLater =>
      (some Status.messageSkipped,
        { db with messages_to_skip := db.messages_to_skip ++ [⟨msg.hash, msg.chat_id⟩] })
  | MenuChoice.skipMsg =>
      (some Status.messageSkipped,
        { db with messages_to_skip := db.messages_to_skip ++ [⟨msg.hash, msg.chat_id⟩] })
  | MenuChoice.stopRun => (some Status.stopCrawl, db)

/-- `label_and_store_message` (crawler.py lines 149-206), driven by a script of
interaction rounds (one per invocation, the tail being consumed by the
"label the message again?" recursion).  The local variable `status` is assigned
only under `len(selected_topics) == 0` or `elif len(selected_misconceptions) ==
0` (the two guards differ only in the entity named in the prompt); when both
selections are non-empty the subsequent read of `status` raises
`UnboundLocalError`, modelled as `LabelOutcome.unboundLocal`. -/
def LabelingMessageHandler.label_and_store_message (msg : TelegramMessage) :
    List LabelRound → DB → LabelOutcome × DB
  | [], db => (LabelOutcome.exhausted, db)
  | r :: rest, db =>
    if r.topics.length = 0 ∨ (selectedMiscs r).length = 0 then
      match LabelingMessageHandler.confirm_empty_selection msg r.menu db with
      | (some s, db1) => LabelingMessageHandler.afterStatus msg r.topics (selectedMiscs r) s db1
      | (none, db1) =>
        match LabelingMessageHandler.label_and_store_message msg rest db1 with
        | (LabelOutcome.done s, db2) =>
            LabelingMessageHandler.afterStatus msg r.topics (selectedMiscs r) s db2
        | other => other
    else
      (LabelOutcome.unboundLocal, db)

/- ---------------------------------------------------------------------------
   crawler.py : BaselineCrawler and subclasses — skip/stop predicates
--------------------------------------------------------------------------- -/

namespace BaselineCrawler

/-- `BaselineCrawler.crawl_should_be_stopped` (crawler.py lines 559-582): stop
once a message predates the minimum date. -/
def crawl_should_be_stopped (st : CrawlState) (m : TMessage)
    (min_date max_date : Option Int) : Bool :=
  match min_date with
  | some d => decide (m.date < d)
  | none => false

/-- `BaselineCrawler.message_should_be_skipped` (crawler.py lines 584-602): skip
messages with no text, messages posted after the maximum date, and polls. -/
def message_should_be_skipped (st : CrawlState) (m : TMessage)
    (min_date max_date : Option Int) : Bool :=
  m.message.isNone
    || (match max_date with
        | some d => decide (m.date > d)
        | none => false)
    || m.isPoll

end BaselineCrawler

namespace KeywordSearchCrawler

/-- The keyword loop of `KeywordSearchCrawler.message_should_be_skipped`
(crawler.py lines 674-677): return False on the first keyword contained in the
text, True when none is. -/
def kwLoop (text : List Char) : List (List Char) → Bool
  | [] => true
  | kw :: rest => if containsSub kw text then false else kwLoop text rest

/-- `KeywordSearchCrawler.message_should_be_skipped` (crawler.py lines
656-677): the baseline skip conditions, plus skipping every message containing
none of the configured keywords.  When the baseline check fails the text is
known to be non-None, so the `getD` default is never read. -/
def message_should_be_skipped (keywords : List (List Char)) (st : CrawlState)
    (m : TMessage) (min_date max_date : Option Int) : Bool :=
  if BaselineCrawler.message_should_be_skipped st m min_date max_date then true
  else kwLoop (m.message.getD []) keywords

end KeywordSearchCrawler

namespace BinaryClassifierCrawler

/-- `BinaryClassifierCrawler.message_should_be_skipped` (crawler.py lines
782-822).  `classify` models the external `classify_message_binary`
collaborator (classifier.py is not part of this repository's core): it returns
the discrete label `classification_result[0]` and may raise, in which case the
exception propagates out of this method — there is no try/except here. -/
def message_should_be_skipped (classify : List Char → Except Unit String)
    (st : CrawlState) (m : TMessage) (min_date max_date : Option Int) :
    Except Unit (Bool × CrawlState) :=
  if BaselineCrawler.message_should_be_skipped st m min_date max_date then
    Except.ok (true, st)
  else if m.message.isNone || m.id ∈ st.current_chat_classified_messages_ids then
    Except.ok (true, st)
  else
    match classify (m.message.getD []) with
    | Except.error e => Except.error e
    | Except.ok label =>
      if label = "irrelevant" then
        Except.ok (true,
          { st with current_chat_classified_messages_ids :=
              st.current_chat_classified_messages_ids ++ [m.id] })
      else
        Except.ok (false, st)

end BinaryClassifierCrawler

/- ---------------------------------------------------------------------------
   crawler.py : BaselineCrawler.handle_chat — the per-chat loop
--------------------------------------------------------------------------- -/

/-- One fetched message together with the outcome of the interactive handler on
it: the status string `handle_message` returns and the chat id
`message_handler.message.chat.id` carries afterwards (the originating chat for
a forwarded message). -/
structure MsgItem where
  msg : TMessage
  handlerStatus : Status
  handlerChatId : Int
deriving DecidableEq, Repr

/-- How one iteration of the message loop in `handle_chat` ended. -/
inductive StepKind
  | brokeOut
  | skipped
  | continued
  | userStopped
deriving DecidableEq, Repr

/-- How the whole message loop of `handle_chat` ended: by the user stopping the
crawl, by the `crawl_should_be_stopped` break, or by running out of
messages. -/
inductive LoopExit
  | userStop
  | broke
  | ranOut
deriving DecidableEq, Repr

/-- What `client.iter_messages(chat_id, offset_date=max_date)` produced: either
the full message sequence, or a `ChannelPrivateError` raised by the iterator
after yielding `processed`. -/
inductive FetchResult
  | ok (items : List MsgItem)
  | denied (processed : List MsgItem)
deriving Repr

/-- The status dispatch of `handle_chat` in labeling mode (crawler.py lines
509-534).  The second branch is Python's
`elif status == "message skipped" or "message stored without labels":` whose
right operand is a non-empty string literal and hence truthy, so the branch is
taken for every status except "stop crawl" (handled before) and the two later
branches — including the queue-insertion branch for
"message stored with labels" — are unreachable. -/
def handleStatusDispatch (chatId : Int) (status : Status) (msgChatId : Int)
    (st : CrawlState) : CrawlState :=
  if status = Status.messageSkipped ∨ pyTruthy "message stored without labels" = true then
    st
  else if status = Status.storedWithLabels then
    if msgChatId ≠ chatId ∧ msgChatId ∉ st.chats_searched then
      { st with chats_to_search := msgChatId :: st.chats_to_search }
    else st
  else
    st

/-- One iteration of the message loop of `handle_chat` (crawler.py lines
495-535): check stop, check skip, hand the message to the handler, dispatch on
its status in labeling mode, and record each `store_crawl_state` call made.
The returned list holds the states checkpointed during this iteration, in
order. -/
def handleStep (stopF : CrawlState → TMessage → Option Int → Option Int → Bool)
    (skipF : CrawlState → TMessage → Option Int → Option Int → Except Unit (Bool × CrawlState))
    (chatId : Int) (min_date max_date : Option Int) (st : CrawlState) (item : MsgItem) :
    Except Unit (CrawlState × List CrawlState × StepKind) :=
  if stopF st item.msg min_date max_date then
    Except.ok (st, [], StepKind.brokeOut)
  else
    match skipF st item.msg min_date max_date with
    | Except.error e => Except.error e
    | Except.ok (true, st1) => Except.ok (st1, [], StepKind.skipped)
    | Except.ok (false, st1) =>
      if st1.no_labeling_mode then
        Except.ok (st1, [st1], StepKind.continued)
      else if item.handlerStatus = Status.stopCrawl then
        Except.ok (st1, [st1], StepKind.userStopped)
      else
        let st2 := handleStatusDispatch chatId item.handlerStatus item.handlerChatId st1
        Except.ok (st2, [st2], StepKind.continued)

/-- The message loop of `handle_chat` over a message sequence, threading the
crawl state and accumulating the checkpoint log. -/
def runMessages (stopF : CrawlState → TMessage → Option Int → Option Int → Bool)
    (skipF : CrawlState → TMessage → Option Int → Option Int → Except Unit (Bool × CrawlState))
    (chatId : Int) (min_date max_date : Option Int) :
    CrawlState → List MsgItem → Except Unit (CrawlState × List CrawlState × LoopExit)
  | st, [] => Except.ok (st, [], LoopExit.ranOut)
  | st, item :: rest =>
    match handleStep stopF skipF chatId min_date max_date st item with
    | Except.error e => Except.error e
    | Except.ok (st1, stores, StepKind.brokeOut) => Except.ok (st1, stores, LoopExit.broke)
    | Except.ok (st1, stores, StepKind.userStopped) => Except.ok (st1, stores, LoopExit.userStop)
    | Except.ok (st1, stores, _) =>
      match runMessages stopF skipF chatId min_date max_date st1 rest with
      | Except.error e => Except.error e
      | Except.ok (st2, stores2, ex) => Except.ok (st2, stores ++ stores2, ex)

/-- The chat-completion code after the message loop (crawler.py lines 545-557):
with a maximum date the chat id goes to `chats_searched`, without one it goes
to the back of `chats_to_search`; in both cases the queue front is popped.
`pop(0)` is applied to the nonempty queue holding the current chat at its
front; on the empty list `tail` stands in for the IndexError that the calling
pattern never triggers. -/
def chatCompletion (chatId : Int) (max_date : Option Int) (st : CrawlState) : CrawlState :=
  let st1 :=
    if max_date.isSome then
      { st with chats_searched := st.chats_searched ++ [chatId] }
    else
      { st with chats_to_search := st.chats_to_search ++ [chatId] }
  { st1 with chats_to_search := st1.chats_to_search.tail }

/-- `BaselineCrawler.handle_chat` (crawler.py lines 451-557): run the message
loop; on a user stop return 1 (the stop itself already checkpointed); on a
`ChannelPrivateError` raised by the message iterator record the chat under
`chats_not_searchable` (creating the key), pop the queue front, checkpoint and
return 0; otherwise run the chat-completion transition, checkpoint and
return 0.  The result carries the return code, the final crawl state, and the
ordered log of every `store_crawl_state` call. -/
def handle_chat (stopF : CrawlState → TMessage → Option Int → Option Int → Bool)
    (skipF : CrawlState → TMessage → Option Int → Option Int → Except Unit (Bool × CrawlState))
    (chatId : Int) (st : CrawlState) (fetch : FetchResult) :
    Except Unit (Nat × CrawlState × List CrawlState) :=
  let min_date := st.min_date
  let max_date := st.max_date
  match fetch with
  | FetchResult.ok items =>
    match runMessages stopF skipF chatId min_date max_date st items with
    | Except.error e => Except.error e
    | Except.ok (st1, stores, LoopExit.userStop) => Except.ok (1, st1, stores)
    | Except.ok (st1, stores, LoopExit.broke) =>
      let st2 := chatCompletion chatId max_date st1
      Except.ok (0, st2, stores ++ [st2])
    | Except.ok (st1, stores, LoopExit.ranOut) =>
      let st2 := chatCompletion chatId max_date st1
      Except.ok (0, st2, stores ++ [st2])
  | FetchResult.denied processed =>
    match runMessages stopF skipF chatId min_date max_date st processed with
    | Except.error e => Except.error e
    | Except.ok (st1, stores, LoopExit.userStop) => Except.ok (1, st1, stores)
    | Except.ok (st1, stores, LoopExit.broke) =>
      -- the loop exited through `break` before the iterator raised
      let st2 := chatCompletion chatId max_date st1
      Except.ok (0, st2, stores ++ [st2])
    | Except.ok (st1, stores, LoopExit.ranOut) =>
      -- `except ChannelPrivateError:` (crawler.py lines 536-543)
      let st2 := { st1 with
        chats_not_searchable := some ((st1.chats_not_searchable.getD []) ++ [chatId])
        chats_to_search := st1.chats_to_search.tail }
      Except.ok (0, st2, stores ++ [st2])

/-- The baseline stop predicate in the shape `handle_chat` consumes. -/
def baselineStopF : CrawlState → TMessage → Option Int → Option Int → Bool :=
  fun st m a b => BaselineCrawler.crawl_should_be_stopped st m a b

/-- The baseline skip predicate in the shape `handle_chat` consumes: it never
raises and never mutates the crawl state. -/
def baselineSkipF : CrawlState → TMessage → Option Int → Option Int →
    Except Unit (Bool × CrawlState) :=
  fun st m a b => Except.ok (BaselineCrawler.message_should_be_skipped st m a b, st)

/- ---------------------------------------------------------------------------
   crawler.py : resumable crawl state (store / retrieve_or_initialize)
--------------------------------------------------------------------------- -/

/-- A CrawlState record as loaded back from the JSON collection.  `store_json`
serialises with `default=str`, so a date bound is stored as the `str()` of the
datetime and a `None` bound as JSON null (loaded as Python `None`,
modelled `none`). -/
structure CrawlRecord where
  index : Nat
  seed_chats : List Int
  min_date : Option String
  max_date : Option String
  chats_to_search : List Int
  chats_searched : List Int
  chats_not_searchable : Option (List Int)
  started : String
  no_labeling_mode : Bool
  extra : List (String × String)
deriving DecidableEq, Repr

/-- The crawl-state dict as returned by `retrieve_or_initialize_crawl_state`:
date bounds are the caller-supplied datetime/None values (crawler.py lines
433-434 replace the loaded strings). -/
structure InitializedCrawl where
  index : Nat
  seed_chats : List Int
  min_date : Option Int
  max_date : Option Int
  chats_to_search : List Int
  chats_searched : List Int
  chats_not_searchable : Option (List Int)
  started : String
  no_labeling_mode : Bool
  extra : List (String × String)
deriving DecidableEq, Repr

/-- `str()` of a caller-supplied date bound: `str(None)` is the string "None",
`str(datetime)` the serialised date. -/
def pyStrOfDate : Option Int → String
  | none => "None"
  | some d => toString d

/-- `str()` of a loaded date bound: `str(None)` for a JSON null, and the
identity on the stored string. -/
def pyStrOfStored : Option String → String
  | none => "None"
  | some s => s

/-- One conjunct `str(c["prop"]) == str(value)` of the dynamically built resume
filter (crawler.py lines 417-419), over the strategy-specific extension bag of
a stored record.  A record in a strategy's own collection file always carries
its strategy keys, so the KeyError of a missing key is never reached. -/
def propMatches (extra : List (String × String)) (kv : String × String) : Bool :=
  match extra.lookup kv.1 with
  | some v => v == kv.2
  | none => false

/-- The resume-match condition evaluated for each stored crawl (crawler.py
lines 420-427): equal seed chat list, string-normalised equal date bounds,
equal labeling-mode flag, and string-equal strategy-specific properties. -/
def crawlMatches (c : CrawlRecord) (seed_chat_ids : List Int)
    (min_date max_date : Option Int) (no_labeling_mode : Bool)
    (props : List (String × String)) : Bool :=
  decide (c.seed_chats = seed_chat_ids)
    && (pyStrOfStored c.min_date == pyStrOfDate min_date)
    && (pyStrOfStored c.max_date == pyStrOfDate max_date)
    && (c.no_labeling_mode == no_labeling_mode)
    && props.all (fun kv => propMatches c.extra kv)

/-- The search for `crawl_to_be_resumed_index` (crawler.py lines 420-429): the
first stored crawl satisfying the match condition, with its position. -/
def findResume (seed_chat_ids : List Int) (min_date max_date : Option Int)
    (no_labeling_mode : Bool) (props : List (String × String)) :
    List CrawlRecord → Nat → Option (Nat × CrawlRecord)
  | [], _ => none
  | c :: rest, i =>
    if crawlMatches c seed_chat_ids min_date max_date no_labeling_mode props then
      some (i, c)
    else
      findResume seed_chat_ids min_date max_date no_labeling_mode props rest (i + 1)

/-- `BaselineCrawler.retrieve_or_initialize_crawl_state` (crawler.py lines
391-449): resume the first stored crawl matching the defining parameters,
replacing its date bounds with the caller-supplied values and setting `index`
to its position; otherwise create a fresh state at index `len(crawls)`.
`KeywordSearchCrawler.retrieve_or_initialize_crawl_state` (lines 611-633) is
this function with `props = [("keywords", str(keywords))]`. -/
def retrieve_or_initialize_crawl_state (crawls : List CrawlRecord)
    (seed_chat_ids : List Int) (min_date max_date : Option Int)
    (label_message : Bool) (props : List (String × String)) (now : String) :
    InitializedCrawl :=
  let no_labeling_mode := !label_message
  match findResume seed_chat_ids min_date max_date no_labeling_mode props crawls 0 with
  | some ic =>
    { index := ic.1
      seed_chats := ic.2.seed_chats
      min_date := min_date
      max_date := max_date
      chats_to_search := ic.2.chats_to_search
      chats_searched := ic.2.chats_searched
      chats_not_searchable := ic.2.chats_not_searchable
      started := ic.2.started
      no_labeling_mode := ic.2.no_labeling_mode
      extra := ic.2.extra }
  | none =>
    { index := crawls.length
      seed_chats := seed_chat_ids
      min_date := min_date
      max_date := max_date
      chats_to_search := seed_chat_ids
      chats_searched := []
      chats_not_searchable := none
      started := now
      no_labeling_mode := no_labeling_mode
      extra := props }

/-- `BaselineCrawler.store_crawl_state` (crawler.py lines 372-389): rewrite the
record at the state's index in the JSON collection, appending when the index is
the next free slot. -/
def store_crawl_state (crawls : List InitializedCrawl) (crawl_state : InitializedCrawl) :
    List InitializedCrawl :=
  if crawls.length = crawl_state.index then crawls ++ [crawl_state]
  else crawls.set crawl_state.index crawl_state

/- ---------------------------------------------------------------------------
   Helper lemmas
--------------------------------------------------------------------------- -/

theorem beginsWith_iff (n : List Char) : ∀ h : List Char, beginsWith n h = true ↔ ∃ r, h = n ++ r := by
  induction n with
  | nil => intro h; simp [beginsWith]
  | cons a as ih =>
    intro h
    cases h with
    | nil =>
      simp [beginsWith]
    | cons b bs =>
      simp only [beginsWith, Bool.and_eq_true, beq_iff_eq]
      constructor
      · rintro ⟨rfl, hb⟩
        obtain ⟨r, rfl⟩ := (ih bs).mp hb
        exact ⟨r, rfl⟩
      · rintro ⟨r, hr⟩
        rw [List.cons_append] at hr
        injection hr with h1 h2
        exact ⟨h1.symm, (ih bs).mpr ⟨r, h2⟩⟩

theorem containsSub_iff (n : List Char) : ∀ h : List Char,
    containsSub n h = true ↔ ∃ l r, h = l ++ n ++ r := by
  intro h
  induction h with
  | nil =>
    simp only [containsSub]
    rw [beginsWith_iff]
    constructor
    · rintro ⟨r, hr⟩
      exact ⟨[], r, by simpa using hr⟩
    · rintro ⟨l, r, hr⟩
      have h0 : l ++ n ++ r = [] := hr.symm
      rw [List.append_assoc] at h0
      obtain ⟨h1, h2⟩ := List.append_eq_nil.mp h0
      obtain ⟨h3, h4⟩ := List.append_eq_nil.mp h2
      exact ⟨[], by simp [h3]⟩
  | cons c rest ih =>
    simp only [containsSub, Bool.or_eq_true]
    rw [beginsWith_iff, ih]
    constructor
    · rintro (⟨r, hr⟩ | ⟨l, r, hr⟩)
      · exact ⟨[], r, by simpa using hr⟩
      · exact ⟨c :: l, r, by simp [hr]⟩
    · rintro ⟨l, r, hr⟩
      cases l with
      | nil =>
        left
        exact ⟨r, by simpa using hr⟩
      | cons x xs =>
        right
        rw [List.cons_append, List.cons_append] at hr
        injection hr with h1 h2
        exact ⟨xs, r, h2⟩

theorem kwLoop_false_iff (text : List Char) :
    ∀ kws : List (List Char), KeywordSearchCrawler.kwLoop text kws = false ↔
      ∃ kw ∈ kws, containsSub kw text = true := by
  intro kws
  induction kws with
  | nil => simp [KeywordSearchCrawler.kwLoop]
  | cons k rest ih =>
    simp only [KeywordSearchCrawler.kwLoop]
    by_cases hk : containsSub k text = true
    · simp [hk]
    · rw [if_neg hk, ih]
      constructor
      · rintro ⟨kw, hkw, hc⟩
        exact ⟨kw, List.mem_cons_of_mem _ hkw, hc⟩
      · rintro ⟨kw, hkw, hc⟩
        rcases List.mem_cons.mp hkw with rfl | hmem
        · exact absurd hc hk
        · exact ⟨kw, hmem, hc⟩

theorem selectedMiscs_of_topics_nil (r : LabelRound) (h : r.topics = []) :
    selectedMiscs r = [] := by
  simp [selectedMiscs, h]

theorem afterStatus_no_with_labels (msg : TelegramMessage) (r : LabelRound) (s : Status)
    (db : DB) (hg : r.topics.length = 0 ∨ (selectedMiscs r).length = 0) :
    (LabelingMessageHandler.afterStatus msg r.topics (selectedMiscs r) s db).1 ≠
      LabelOutcome.done Status.storedWithLabels := by
  have hm : (selectedMiscs r).length = 0 := by
    rcases hg with h | h
    · rw [selectedMiscs_of_topics_nil r (List.length_eq_zero.mp h)]
      rfl
    · exact h
  unfold LabelingMessageHandler.afterStatus
  by_cases hs : s = Status.stopCrawl
  · simp [hs]
  · simp [hs, hm]

theorem label_loop_no_with_labels (msg : TelegramMessage) :
    ∀ (rounds : List LabelRound) (db : DB),
      (LabelingMessageHandler.label_and_store_message msg rounds db).1 ≠
        LabelOutcome.done Status.storedWithLabels := by
  intro rounds
  induction rounds with
  | nil =>
    intro db
    simp [LabelingMessageHandler.label_and_store_message]
  | cons r rest ih =>
    intro db
    simp only [LabelingMessageHandler.label_and_store_message]
    by_cases hg : r.topics.length = 0 ∨ (selectedMiscs r).length = 0
    · rw [if_pos hg]
      split
      · exact afterStatus_no_with_labels msg r _ _ hg
      · split
        · exact afterStatus_no_with_labels msg r _ _ hg
        · exact ih _
    · rw [if_neg hg]
      simp

/- ---------------------------------------------------------------------------
   Claim theorems
--------------------------------------------------------------------------- -/

/-- Claim C1 (evaluation of the code at the failing input): in
`BaselineCrawler.handle_chat` the branch
`elif status == "message skipped" or "message stored without labels":` is
always taken for a non-stop status because its right operand is a truthy string
literal, so the queue-insertion branch for "message stored with labels" is dead
code.  With status "message stored with labels", crawled chat 1, originating
chat 2 and empty `chats_searched`, the queue is left at `[1]` instead of
getting 2 inserted at its front — and in general the dispatch never changes the
crawl state at all. -/
theorem C1_discovery_insertion_dead_code :
    (∀ (chatId : Int) (status : Status) (msgChatId : Int) (st : CrawlState),
      handleStatusDispatch chatId status msgChatId st = st) ∧
    handleStatusDispatch 1 Status.storedWithLabels 2
        ⟨[1], [], none, [], none, none, false⟩ =
      ⟨[1], [], none, [], none, none, false⟩ := by
  have hco : pyTruthy "message stored without labels" = true := by decide
  have hall : ∀ (chatId : Int) (status : Status) (msgChatId : Int) (st : CrawlState),
      handleStatusDispatch chatId status msgChatId st = st := by
    intro chatId status msgChatId st
    unfold handleStatusDispatch
    rw [if_pos (Or.inr hco)]
  exact ⟨hall, hall 1 Status.storedWithLabels 2 _⟩

/-- Claim C4: when the user's selection contains at least one topic and at
least one misconception, neither guarded assignment of the local `status` in
`label_and_store_message` runs, so the subsequent read raises
`UnboundLocalError` and the database is untouched; consequently the return
value "message stored with labels" is unreachable on every execution path of
`label_and_store_message`. -/
theorem C4_unbound_status_makes_with_labels_unreachable
    (msg : TelegramMessage) (db : DB) (r : LabelRound) (rest : List LabelRound)
    (ht : r.topics ≠ []) (hm : selectedMiscs r ≠ []) :
    LabelingMessageHandler.label_and_store_message msg (r :: rest) db =
      (LabelOutcome.unboundLocal, db) ∧
    ∀ (rounds : List LabelRound) (db2 : DB),
      (LabelingMessageHandler.label_and_store_message msg rounds db2).1 ≠
        LabelOutcome.done Status.storedWithLabels := by
  constructor
  · have hg : ¬(r.topics.length = 0 ∨ (selectedMiscs r).length = 0) := by
      push_neg
      exact ⟨fun h => ht (List.length_eq_zero.mp h),
             fun h => hm (List.length_eq_zero.mp h)⟩
    simp only [LabelingMessageHandler.label_and_store_message]
    rw [if_neg hg]
  · intro rounds db2
    exact label_loop_no_with_labels msg rounds db2

/-- Witness for C4: a concrete selection with one topic and one misconception
raises the unbound-variable error and leaves the database unchanged. -/
theorem C4_unbound_status_makes_with_labels_unreachable_witness :
    LabelingMessageHandler.label_and_store_message
        ⟨1, 10, "hello", none, "h1", "c0", "t0", none, none⟩
        [⟨[1], [[2]], MenuChoice.storeWithout⟩]
        ⟨[], [], [], []⟩ =
      (LabelOutcome.unboundLocal, ⟨[], [], [], []⟩) :=
  (C4_unbound_status_makes_with_labels_unreachable
    ⟨1, 10, "hello", none, "h1", "c0", "t0", none, none⟩
    ⟨[], [], [], []⟩
    ⟨[1], [[2]], MenuChoice.storeWithout⟩
    []
    (by decide) (by decide)).1

theorem filter_not_filter {α : Type} (p : α → Bool) :
    ∀ l : List α, (l.filter (fun a => !(p a))).filter p = [] := by
  intro l
  induction l with
  | nil => rfl
  | cons a t ih =>
    by_cases h : p a = true
    · simp [List.filter_cons, h, ih]
    · simp only [Bool.not_eq_true] at h
      simp [List.filter_cons, h, ih]

theorem filter_map_const {α β : Type} (l : List α) (f : α → β) (p : β → Bool)
    (h : ∀ a, p (f a) = true) : (l.map f).filter p = l.map f := by
  induction l with
  | nil => rfl
  | cons a t ih => simp [List.filter_cons, h, ih]

/-- Claim C10: re-labeling an already-stored message first deletes all of its
prior topic and misconception labels and then writes exactly the newly selected
set — a full replace, not a merge; in particular a confirmed-empty re-labeling
leaves zero topic labels and exactly the one null-misconception sentinel
row. -/
theorem C10_full_replace_of_labels (db : DB) (msg : TelegramMessage) (selT selM : List Int)
    (hst : ∃ m0 ∈ db.messages, m0.hash = msg.hash) :
    ((LabelingMessageHandler.store_message_and_labels msg selT selM db).message_topics.filter
        (fun t => t.message_hash == msg.hash) =
      selT.map (fun t => ({ chat := msg.chat_id, message_hash := msg.hash, topic := t } : MessageTopicRow))) ∧
    ((LabelingMessageHandler.store_message_and_labels msg selT selM db).message_misconceptions.filter
        (fun t => t.message_hash == msg.hash) =
      (if selM.length = 0 then
        [({ chat := msg.chat_id, message_hash := msg.hash, misconception := none } : MessageMisconceptionRow)]
       else
        selM.map (fun mc => ({ chat := msg.chat_id, message_hash := msg.hash, misconception := some mc } : MessageMisconceptionRow)))) ∧
    ((LabelingMessageHandler.label_and_store_message msg
        [{ topics := [], miscs := [], menu := MenuChoice.storeWithout }] db).1 =
      LabelOutcome.done Status.storedWithoutLabels) ∧
    ((LabelingMessageHandler.label_and_store_message msg
        [{ topics := [], miscs := [], menu := MenuChoice.storeWithout }] db).2.message_topics.filter
        (fun t => t.message_hash == msg.hash) = []) ∧
    ((LabelingMessageHandler.label_and_store_message msg
        [{ topics := [], miscs := [], menu := MenuChoice.storeWithout }] db).2.message_misconceptions.filter
        (fun t => t.message_hash == msg.hash) =
      [({ chat := msg.chat_id, message_hash := msg.hash, misconception := none } : MessageMisconceptionRow)]) := by
  have hlen : ¬((db.messages.filter (fun r => r.hash == msg.hash)).length = 0) := by
    obtain ⟨m0, hm0, hh0⟩ := hst
    have hmem : m0 ∈ db.messages.filter (fun r => r.hash == msg.hash) :=
      List.mem_filter.mpr ⟨hm0, by rw [hh0]; exact beq_self_eq_true _⟩
    intro hcon
    rw [List.length_eq_zero.mp hcon] at hmem
    cases hmem
  have htop : ∀ sT sM : List Int,
      (LabelingMessageHandler.store_message_and_labels msg sT sM db).message_topics.filter
          (fun t => t.message_hash == msg.hash) =
        sT.map (fun t => ({ chat := msg.chat_id, message_hash := msg.hash, topic := t } : MessageTopicRow)) := by
    intro sT sM
    simp only [LabelingMessageHandler.store_message_and_labels]
    rw [if_neg hlen]
    by_cases hsm : sM.length = 0
    · rw [if_pos hsm]
      rw [List.filter_append, filter_not_filter, List.nil_append]
      exact filter_map_const sT _ _ (fun a => beq_self_eq_true _)
    · rw [if_neg hsm]
      rw [List.filter_append, filter_not_filter, List.nil_append]
      exact filter_map_const sT _ _ (fun a => beq_self_eq_true _)
  have hmis : ∀ sT sM : List Int,
      (LabelingMessageHandler.store_message_and_labels msg sT sM db).message_misconceptions.filter
          (fun t => t.message_hash == msg.hash) =
        (if sM.length = 0 then
          [({ chat := msg.chat_id, message_hash := msg.hash, misconception := none } : MessageMisconceptionRow)]
         else
          sM.map (fun mc => ({ chat := msg.chat_id, message_hash := msg.hash, misconception := some mc } : MessageMisconceptionRow))) := by
    intro sT sM
    simp only [LabelingMessageHandler.store_message_and_labels]
    rw [if_neg hlen]
    by_cases hsm : sM.length = 0
    · rw [if_pos hsm, if_pos hsm]
      rw [List.length_eq_zero.mp hsm]
      simp [List.filter_append, filter_not_filter, List.filter_cons]
    · rw [if_neg hsm, if_neg hsm]
      rw [List.filter_append, filter_not_filter, List.nil_append]
      exact filter_map_const sM _ _ (fun a => beq_self_eq_true _)
  have hrun : LabelingMessageHandler.label_and_store_message msg
      [{ topics := [], miscs := [], menu := MenuChoice.storeWithout }] db =
      (LabelOutcome.done Status.storedWithoutLabels,
        LabelingMessageHandler.store_message_and_labels msg [] [] db) := by
    simp [LabelingMessageHandler.label_and_store_message,
      LabelingMessageHandler.confirm_empty_selection,
      LabelingMessageHandler.afterStatus, selectedMiscs]
  refine ⟨htop selT selM, hmis selT selM, ?_, ?_, ?_⟩
  · rw [hrun]
  · rw [hrun]
    have h1 := htop [] []
    simpa using h1
  · rw [hrun]
    have h2 := hmis [] []
    simpa using h2

/-- Witness for C10: a stored message with one prior topic label and one prior
misconception label is re-labelled with a confirmed-empty selection, leaving
zero topic labels and exactly the sentinel misconception row. -/
theorem C10_full_replace_of_labels_witness :
    ((LabelingMessageHandler.label_and_store_message
        ⟨1, 10, "hello", none, "h1", "c0", "t0", none, none⟩
        [{ topics := [], miscs := [], menu := MenuChoice.storeWithout }]
        ⟨[⟨1, 10, "hello", none, "h1", "c0", "t0", none, none⟩],
          [⟨1, "h1", 7⟩], [⟨1, "h1", some 3⟩], []⟩).2.message_topics.filter
        (fun t => t.message_hash == "h1") = []) ∧
    ((LabelingMessageHandler.label_and_store_message
        ⟨1, 10, "hello", none, "h1", "c0", "t0", none, none⟩
        [{ topics := [], miscs := [], menu := MenuChoice.storeWithout }]
        ⟨[⟨1, 10, "hello", none, "h1", "c0", "t0", none, none⟩],
          [⟨1, "h1", 7⟩], [⟨1, "h1", some 3⟩], []⟩).2.message_misconceptions.filter
        (fun t => t.message_hash == "h1") = [⟨1, "h1", none⟩]) := by
  have h := C10_full_replace_of_labels
    ⟨[⟨1, 10, "hello", none, "h1", "c0", "t0", none, none⟩],
      [⟨1, "h1", 7⟩], [⟨1, "h1", some 3⟩], []⟩
    ⟨1, 10, "hello", none, "h1", "c0", "t0", none, none⟩
    [] [] (by simp)
  exact ⟨h.2.2.2.1, h.2.2.2.2⟩

theorem firstWithHash_eq_some (d : TelegramMessage) (h : String) :
    ∀ db : List TelegramMessage,
      db.Pairwise (fun a b => a.hash ≠ b.hash) → d ∈ db → d.hash = h →
      firstWithHash db h = some d := by
  intro db
  induction db with
  | nil => intro _ hd _; cases hd
  | cons a tl ih =>
    intro hpw hd hh
    rcases List.mem_cons.mp hd with rfl | hmem
    · unfold firstWithHash
      rw [List.filter_cons]
      rw [if_pos (by rw [hh]; exact beq_self_eq_true h)]
      rfl
    · have hne : a.hash ≠ d.hash := (List.pairwise_cons.mp hpw).1 d hmem
      unfold firstWithHash
      rw [List.filter_cons]
      rw [if_neg (by rw [beq_iff_eq]; rw [← hh]; exact hne)]
      exact ih (List.pairwise_cons.mp hpw).2 hmem hh

theorem firstWithHash_none_iff (db : List TelegramMessage) (h : String) :
    firstWithHash db h = none ↔ ∀ x ∈ db, x.hash ≠ h := by
  unfold firstWithHash
  rw [List.head?_eq_none_iff, List.filter_eq_nil_iff]
  simp

theorem firstWithHash_mem (db : List TelegramMessage) (h : String) (d : TelegramMessage)
    (hf : firstWithHash db h = some d) : d ∈ db ∧ d.hash = h := by
  unfold firstWithHash at hf
  have hmem : d ∈ db.filter (fun r => r.hash == h) := by
    cases hfl : db.filter (fun r => r.hash == h) with
    | nil => rw [hfl] at hf; cases hf
    | cons x xs =>
      rw [hfl] at hf
      injection hf with hx
      rw [← hx]
      exact List.mem_cons_self x xs
  have := List.mem_filter.mp hmem
  exact ⟨this.1, beq_iff_eq.mp this.2⟩

/-- Claim C3: a newly fetched message sharing a fingerprint with a stored one
is reconciled by `duplicate_exists`: identical content, or matching chat id and
message id, cause an in-place refresh of content, url, views, forwards and
last_retrieved (keeping key, ids and creation date, adding no second record)
with result True; any other fingerprint coincidence raises the fatal
hash-collision error; and the result is False exactly when no stored message
carries the fingerprint. -/
theorem C3_duplicate_reconciliation (db : List TelegramMessage) (m d : TelegramMessage)
    (hpw : db.Pairwise (fun a b => a.hash ≠ b.hash)) (hd : d ∈ db) (hh : d.hash = m.hash) :
    ((d.content = m.content ∨ (d.chat_id = m.chat_id ∧ d.message_id = m.message_id)) →
      TelegramMessage.duplicate_exists db m =
        Except.ok (true, saveByHash db (updateDuplicate d m)) ∧
      (saveByHash db (updateDuplicate d m)).length = db.length ∧
      (updateDuplicate d m).content = m.content ∧
      (updateDuplicate d m).url = m.url ∧
      (updateDuplicate d m).views = m.views ∧
      (updateDuplicate d m).forwards = m.forwards ∧
      (updateDuplicate d m).last_retrieved = m.last_retrieved ∧
      (updateDuplicate d m).hash = d.hash ∧
      (updateDuplicate d m).chat_id = d.chat_id ∧
      (updateDuplicate d m).message_id = d.message_id ∧
      (updateDuplicate d m).creation_date = d.creation_date) ∧
    (¬(d.content = m.content ∨ (d.chat_id = m.chat_id ∧ d.message_id = m.message_id)) →
      TelegramMessage.duplicate_exists db m = Except.error "Hash collision!") ∧
    (∀ (db2 : List TelegramMessage) (m2 : TelegramMessage),
      TelegramMessage.duplicate_exists db2 m2 = Except.ok (false, db2) ↔
        ∀ x ∈ db2, x.hash ≠ m2.hash) := by
  have hf : firstWithHash db m.hash = some d := firstWithHash_eq_some d m.hash db hpw hd hh
  refine ⟨?_, ?_, ?_⟩
  · intro hc
    simp only [TelegramMessage.duplicate_exists, hf]
    rw [if_pos hc]
    refine ⟨rfl, ?_, rfl, rfl, rfl, rfl, rfl, rfl, rfl, rfl, rfl⟩
    simp [saveByHash]
  · intro hc
    simp only [TelegramMessage.duplicate_exists, hf]
    rw [if_neg hc]
  · intro db2 m2
    constructor
    · intro heq
      cases hf2 : firstWithHash db2 m2.hash with
      | none => exact (firstWithHash_none_iff db2 m2.hash).mp hf2
      | some dd =>
        simp only [TelegramMessage.duplicate_exists, hf2] at heq
        by_cases hc : dd.content = m2.content ∨ (dd.chat_id = m2.chat_id ∧ dd.message_id = m2.message_id)
        · rw [if_pos hc] at heq
          simp at heq
        · rw [if_neg hc] at heq
          cases heq
    · intro hall
      have hn : firstWithHash db2 m2.hash = none := (firstWithHash_none_iff db2 m2.hash).mpr hall
      simp only [TelegramMessage.duplicate_exists, hn]

/-- Witness for C3: re-ingesting the stored message with the same chat and
message id but a changed view count refreshes the stored row in place (views
and last_retrieved updated, creation date kept) and reports a duplicate,
producing no second stored record. -/
theorem C3_duplicate_reconciliation_witness :
    TelegramMessage.duplicate_exists
        [⟨1, 10, "hello", none, "h1", "c0", "t0", some 5, none⟩]
        ⟨1, 10, "hello", none, "h1", "cX", "t1", some 9, some 2⟩ =
      Except.ok (true, [⟨1, 10, "hello", none, "h1", "c0", "t1", some 9, some 2⟩]) := by
  have h := (C3_duplicate_reconciliation
    [⟨1, 10, "hello", none, "h1", "c0", "t0", some 5, none⟩]
    ⟨1, 10, "hello", none, "h1", "cX", "t1", some 9, some 2⟩
    ⟨1, 10, "hello", none, "h1", "c0", "t0", some 5, none⟩
    (by simp) (by simp) rfl).1 (Or.inl rfl)
  exact h.1.trans (by rfl)

/-- Counterexample to claim C2: in a no-labeling baseline run over two
messages, the first message (a poll) is processed and skipped with zero
checkpoints recorded by its loop iteration — the iteration continues straight
to fetching the next message — and the whole two-message loop records a single
checkpoint, so the crawl state is not persisted after each processed message:
the work of the skipped message is not bounded by a checkpoint. -/
theorem C2_skip_without_checkpoint_counterexample :
    handleStep baselineStopF baselineSkipF 1 none none
        ⟨[1], [], none, [], none, none, true⟩
        ⟨⟨some ['a'], 5, true, 10, 1⟩, Status.storedWithoutLabels, 1⟩ =
      Except.ok (⟨[1], [], none, [], none, none, true⟩, [], StepKind.skipped) ∧
    runMessages baselineStopF baselineSkipF 1 none none
        ⟨[1], [], none, [], none, none, true⟩
        [⟨⟨some ['a'], 5, true, 10, 1⟩, Status.storedWithoutLabels, 1⟩,
         ⟨⟨some ['b'], 6, false, 11, 1⟩, Status.storedWithoutLabels, 1⟩] =
      Except.ok (⟨[1], [], none, [], none, none, true⟩,
        [⟨[1], [], none, [], none, none, true⟩], LoopExit.ranOut) :=
  ⟨rfl, rfl⟩

/-- Claim C2 as amended: the crawl state is checkpointed exactly once after
every message that actually reaches the message handler (stored or triggering a
user stop), while messages skipped by the filter — and the message at which the
minimum-date stop fires — produce no checkpoint of their own; additionally,
each checkpoint is a full rewrite of the record at the state's index in the
JSON collection (appending when the index is the next free slot). -/
theorem C2_checkpoint_after_each_handled_message
    (stopF : CrawlState → TMessage → Option Int → Option Int → Bool)
    (skipF : CrawlState → TMessage → Option Int → Option Int → Except Unit (Bool × CrawlState))
    (chatId : Int) (minD maxD : Option Int) (st st1 : CrawlState) (item : MsgItem)
    (stores : List CrawlState) (kind : StepKind)
    (h : handleStep stopF skipF chatId minD maxD st item = Except.ok (st1, stores, kind)) :
    ((kind = StepKind.continued ∨ kind = StepKind.userStopped) → stores = [st1]) ∧
    ((kind = StepKind.skipped ∨ kind = StepKind.brokeOut) → stores = []) ∧
    (∀ (crawls : List InitializedCrawl) (cs : InitializedCrawl),
      (crawls.length = cs.index → store_crawl_state crawls cs = crawls ++ [cs]) ∧
      (crawls.length ≠ cs.index → store_crawl_state crawls cs = crawls.set cs.index cs)) := by
  refine ⟨?_, ?_, ?_⟩
  · intro hk
    unfold handleStep at h
    split at h
    · injection h with h1
      injection h1 with h1 h2
      injection h2 with h2 h3
      rcases hk with rfl | rfl
      · cases h3
      · cases h3
    · split at h
      · cases h
      · injection h with h1
        injection h1 with h1 h2
        injection h2 with h2 h3
        rcases hk with rfl | rfl
        · cases h3
        · cases h3
      · split at h
        · injection h with h1
          injection h1 with h1 h2
          injection h2 with h2 h3
          rw [← h1, ← h2]
        · split at h
          · injection h with h1
            injection h1 with h1 h2
            injection h2 with h2 h3
            rw [← h1, ← h2]
          · injection h with h1
            injection h1 with h1 h2
            injection h2 with h2 h3
            rw [← h1, ← h2]
  · intro hk
    unfold handleStep at h
    split at h
    · injection h with h1
      injection h1 with h1 h2
      injection h2 with h2 h3
      rw [← h2]
    · split at h
      · cases h
      · injection h with h1
        injection h1 with h1 h2
        injection h2 with h2 h3
        rw [← h2]
      · split at h
        · injection h with h1
          injection h1 with h1 h2
          injection h2 with h2 h3
          rcases hk with rfl | rfl
          · cases h3
          · cases h3
        · split at h
          · injection h with h1
            injection h1 with h1 h2
            injection h2 with h2 h3
            rcases hk with rfl | rfl
            · cases h3
            · cases h3
          · injection h with h1
            injection h1 with h1 h2
            injection h2 with h2 h3
            rcases hk with rfl | rfl
            · cases h3
            · cases h3
  · intro crawls cs
    constructor
    · intro hlen
      unfold store_crawl_state
      rw [if_pos hlen]
    · intro hlen
      unfold store_crawl_state
      rw [if_neg hlen]

/-- Witness for C2 (amended): a stored message's iteration records exactly one
checkpoint, the updated state itself. -/
theorem C2_checkpoint_after_each_handled_message_witness :
    handleStep baselineStopF baselineSkipF 1 none none
        ⟨[2], [], none, [], none, none, true⟩
        ⟨⟨some ['b'], 6, false, 11, 2⟩, Status.storedWithoutLabels, 2⟩ =
      Except.ok (⟨[2], [], none, [], none, none, true⟩,
        [⟨[2], [], none, [], none, none, true⟩], StepKind.continued) ∧
    ([⟨[2], [], none, [], none, none, true⟩] : List CrawlState) =
      [⟨[2], [], none, [], none, none, true⟩] :=
  ⟨rfl,
    (C2_checkpoint_after_each_handled_message baselineStopF baselineSkipF 1 none none
      ⟨[2], [], none, [], none, none, true⟩
      ⟨[2], [], none, [], none, none, true⟩
      ⟨⟨some ['b'], 6, false, 11, 2⟩, Status.storedWithoutLabels, 2⟩
      [⟨[2], [], none, [], none, none, true⟩] StepKind.continued rfl).1 (Or.inl rfl)⟩

/-- Claim C5: when the message iterator raises the access-denied condition
(ChannelPrivateError), `handle_chat` appends the chat id to
`chats_not_searchable` (creating the list when the key is absent), removes the
front element of `chats_to_search`, checkpoints exactly that state, and returns
0 so the run continues — the failure is not propagated. -/
theorem C5_access_denied_recovery (st st1 : CrawlState) (chatId : Int)
    (processed : List MsgItem) (stores : List CrawlState) (rest : List Int)
    (hrun : runMessages baselineStopF baselineSkipF chatId st.min_date st.max_date st processed =
      Except.ok (st1, stores, LoopExit.ranOut))
    (hq : st1.chats_to_search = chatId :: rest) :
    handle_chat baselineStopF baselineSkipF chatId st (FetchResult.denied processed) =
      Except.ok (0,
        { st1 with
          chats_not_searchable := some ((st1.chats_not_searchable.getD []) ++ [chatId])
          chats_to_search := rest },
        stores ++ [{ st1 with
          chats_not_searchable := some ((st1.chats_not_searchable.getD []) ++ [chatId])
          chats_to_search := rest }]) := by
  simp only [handle_chat, hrun]
  rw [hq]
  rfl

/-- Witness for C5: a private chat at the queue front is recorded under
`chats_not_searchable` (the key being created), the queue front is popped, the
resulting state is checkpointed, and the return code is 0. -/
theorem C5_access_denied_recovery_witness :
    handle_chat baselineStopF baselineSkipF 1
        ⟨[1], [], none, [], none, none, true⟩ (FetchResult.denied []) =
      Except.ok (0, ⟨[], [], some [1], [], none, none, true⟩,
        [⟨[], [], some [1], [], none, none, true⟩]) := by
  have h := C5_access_denied_recovery
    ⟨[1], [], none, [], none, none, true⟩
    ⟨[1], [], none, [], none, none, true⟩
    1 [] [] [] rfl rfl
  exact h.trans rfl

/-- Claim C6: when the message loop for the front-of-queue chat finishes
without a user stop and without an access failure, the chat id is moved from
the queue front into `chats_searched` when a maximum date is set, and from the
queue front to the queue back when it is not; in both cases exactly the front
element is removed, the transition state is checkpointed and the return code
is 0. -/
theorem C6_chat_completion_policy (st st1 : CrawlState) (chatId : Int)
    (items : List MsgItem) (stores : List CrawlState) (ex : LoopExit) (rest : List Int)
    (hrun : runMessages baselineStopF baselineSkipF chatId st.min_date st.max_date st items =
      Except.ok (st1, stores, ex))
    (hex : ex ≠ LoopExit.userStop)
    (hq : st1.chats_to_search = chatId :: rest) :
    handle_chat baselineStopF baselineSkipF chatId st (FetchResult.ok items) =
      Except.ok (0, chatCompletion chatId st.max_date st1,
        stores ++ [chatCompletion chatId st.max_date st1]) ∧
    (st.max_date.isSome = true →
      (chatCompletion chatId st.max_date st1).chats_to_search = rest ∧
      (chatCompletion chatId st.max_date st1).chats_searched =
        st1.chats_searched ++ [chatId]) ∧
    (st.max_date = none →
      (chatCompletion chatId st.max_date st1).chats_to_search = rest ++ [chatId] ∧
      (chatCompletion chatId st.max_date st1).chats_searched = st1.chats_searched) := by
  refine ⟨?_, ?_, ?_⟩
  · cases ex with
    | userStop => exact absurd rfl hex
    | broke => simp only [handle_chat, hrun]
    | ranOut => simp only [handle_chat, hrun]
  · intro hmax
    cases hcase : st.max_date with
    | none => simp [hcase] at hmax
    | some dd =>
      constructor
      · simp [chatCompletion, hq]
      · simp [chatCompletion]
  · intro hmax
    rw [hmax]
    constructor
    · simp [chatCompletion, hq]
    · simp [chatCompletion]

/-- Witness for C6: with a maximum date set and an exhausted message window,
the front chat 1 moves from the queue into `chats_searched` and the transition
is checkpointed. -/
theorem C6_chat_completion_policy_witness :
    handle_chat baselineStopF baselineSkipF 1
        ⟨[1, 2], [], none, [], none, some 100, true⟩ (FetchResult.ok []) =
      Except.ok (0, ⟨[2], [1], none, [], none, some 100, true⟩,
        [⟨[2], [1], none, [], none, some 100, true⟩]) ∧
    (⟨[2], [1], none, [], none, some 100, true⟩ : CrawlState).chats_searched = [] ++ [1] := by
  have h := C6_chat_completion_policy
    ⟨[1, 2], [], none, [], none, some 100, true⟩
    ⟨[1, 2], [], none, [], none, some 100, true⟩
    1 [] [] LoopExit.ranOut [2] rfl (by decide) rfl
  exact ⟨h.1.trans rfl, ((h.2.1 rfl).2).trans rfl⟩

/-- Claim C8: for a message with non-None text and a non-empty keyword list,
`KeywordSearchCrawler.message_should_be_skipped` returns False exactly when the
text contains at least one configured keyword as a case-sensitive substring and
none of the baseline skip conditions (posted after the maximum date, poll)
holds; `containsSub` is substring containment; and a message the filter skips
is passed over by the loop iteration without reaching the message handler. -/
theorem C8_keyword_filter_iff (keywords : List (List Char)) (st : CrawlState)
    (m : TMessage) (minD maxD : Option Int) (text : List Char)
    (htext : m.message = some text) (hkws : keywords ≠ []) :
    (KeywordSearchCrawler.message_should_be_skipped keywords st m minD maxD = false ↔
      ((∃ kw ∈ keywords, containsSub kw text = true) ∧
        (∀ d : Int, maxD = some d → ¬(m.date > d)) ∧
        m.isPoll = false)) ∧
    (∀ (kw h : List Char), containsSub kw h = true ↔ ∃ l r, h = l ++ kw ++ r) ∧
    (∀ (chatId : Int) (item : MsgItem) (stw : CrawlState),
      KeywordSearchCrawler.message_should_be_skipped keywords stw item.msg minD maxD = true →
      baselineStopF stw item.msg minD maxD = false →
      handleStep baselineStopF
        (fun s mm a b => Except.ok (KeywordSearchCrawler.message_should_be_skipped keywords s mm a b, s))
        chatId minD maxD stw item = Except.ok (stw, [], StepKind.skipped)) := by
  have hbs_iff : ∀ stx : CrawlState,
      BaselineCrawler.message_should_be_skipped stx m minD maxD = false ↔
        ((∀ d : Int, maxD = some d → ¬(m.date > d)) ∧ m.isPoll = false) := by
    intro stx
    unfold BaselineCrawler.message_should_be_skipped
    rw [htext]
    cases maxD with
    | none => simp
    | some d =>
      simp only [Option.isNone_some, Bool.false_or, Bool.or_eq_false_iff,
        decide_eq_false_iff_not]
      constructor
      · rintro ⟨h1, h2⟩
        refine ⟨fun dd hdd => ?_, h2⟩
        injection hdd with hinj
        rw [← hinj]
        exact h1
      · rintro ⟨h1, h2⟩
        exact ⟨h1 d rfl, h2⟩
  refine ⟨?_, ?_, ?_⟩
  · unfold KeywordSearchCrawler.message_should_be_skipped
    by_cases hbs : BaselineCrawler.message_should_be_skipped st m minD maxD = true
    · rw [if_pos hbs]
      constructor
      · intro hcon
        exact absurd hcon (by decide)
      · rintro ⟨h1, h2, h3⟩
        exact absurd (((hbs_iff st).mpr ⟨h2, h3⟩).symm.trans hbs) (by decide)
    · rw [if_neg hbs]
      have hbsf : BaselineCrawler.message_should_be_skipped st m minD maxD = false :=
        Bool.of_not_eq_true hbs
      rw [htext]
      simp only [Option.getD_some]
      rw [kwLoop_false_iff]
      constructor
      · intro hex
        exact ⟨hex, ((hbs_iff st).mp hbsf).1, ((hbs_iff st).mp hbsf).2⟩
      · rintro ⟨hex, h2, h3⟩
        exact hex
  · intro kw h
    exact containsSub_iff kw h
  · intro chatId item stw hskip hstop
    simp [handleStep, hstop, hskip]

/-- Witness for C8: with keyword list `["a"]` and text `"ba"` the keyword
filter does not skip the message. -/
theorem C8_keyword_filter_iff_witness :
    KeywordSearchCrawler.message_should_be_skipped [['a']]
        ⟨[1], [], none, [], none, none, false⟩
        ⟨some ['b', 'a'], 5, false, 1, 1⟩ none none = false := by
  have h := (C8_keyword_filter_iff [['a']]
    ⟨[1], [], none, [], none, none, false⟩
    ⟨some ['b', 'a'], 5, false, 1, 1⟩ none none ['b', 'a'] rfl (by decide)).1
  exact h.mpr ⟨⟨['a'], by simp, by decide⟩, by simp, rfl⟩

/-- Counterexample to claim C9: a failure raised by the classifier invocation
is not treated as a skip — it propagates out of
`BinaryClassifierCrawler.message_should_be_skipped` and out of `handle_chat`,
whose only handler is for the access-denied condition, so one failing message
aborts the whole per-chat crawl instead of being skipped. -/
theorem C9_classifier_error_aborts_counterexample :
    handle_chat baselineStopF
        (BinaryClassifierCrawler.message_should_be_skipped (fun t => Except.error ()))
        1 ⟨[1], [], none, [], none, none, true⟩
        (FetchResult.ok [⟨⟨some ['x'], 5, false, 7, 1⟩, Status.storedWithoutLabels, 1⟩]) =
      Except.error () :=
  rfl

/-- Claim C9 as amended: malformed messages — missing text or poll media — are
skipped and the per-chat crawl continues, and a message already classified is
likewise skipped; but an exception raised by the classifier invocation is not
converted into a skip: it propagates out of `message_should_be_skipped`, and a
single-message chat whose skip check raises makes `handle_chat` itself return
that error (only the access-denied condition is caught). -/
theorem C9_malformed_skipped_but_classifier_error_fatal
    (classify : List Char → Except Unit String) (st : CrawlState) (m : TMessage)
    (minD maxD : Option Int) :
    (m.message = none →
      BinaryClassifierCrawler.message_should_be_skipped classify st m minD maxD =
        Except.ok (true, st)) ∧
    (m.isPoll = true →
      BinaryClassifierCrawler.message_should_be_skipped classify st m minD maxD =
        Except.ok (true, st)) ∧
    (BaselineCrawler.message_should_be_skipped st m minD maxD = false →
      m.id ∉ st.current_chat_classified_messages_ids →
      classify (m.message.getD []) = Except.error () →
      BinaryClassifierCrawler.message_should_be_skipped classify st m minD maxD =
        Except.error ()) ∧
    (∀ (stopF : CrawlState → TMessage → Option Int → Option Int → Bool)
        (skipF : CrawlState → TMessage → Option Int → Option Int → Except Unit (Bool × CrawlState))
        (chatId : Int) (item : MsgItem),
      stopF st item.msg st.min_date st.max_date = false →
      skipF st item.msg st.min_date st.max_date = Except.error () →
      handle_chat stopF skipF chatId st (FetchResult.ok [item]) = Except.error ()) := by
  refine ⟨?_, ?_, ?_, ?_⟩
  · intro hnone
    unfold BinaryClassifierCrawler.message_should_be_skipped
    rw [if_pos (by unfold BaselineCrawler.message_should_be_skipped; rw [hnone]; rfl)]
  · intro hpoll
    unfold BinaryClassifierCrawler.message_should_be_skipped
    rw [if_pos (by unfold BaselineCrawler.message_should_be_skipped; rw [hpoll]; simp)]
  · intro hbs hnotmem hcls
    unfold BinaryClassifierCrawler.message_should_be_skipped
    rw [if_neg (by rw [hbs]; exact Bool.false_ne_true)]
    have hisnone : m.message.isNone = false := by
      unfold BaselineCrawler.message_should_be_skipped at hbs
      cases hmm : m.message with
      | none => rw [hmm] at hbs; cases hbs
      | some t => rfl
    rw [if_neg (by simp [hisnone, hnotmem])]
    rw [hcls]
  · intro stopF skipF chatId item hstop hskip
    simp [handle_chat, runMessages, handleStep, hstop, hskip]

/-- Witness for C9 (amended): a concrete message with text reaches the failing
classifier and the skip check raises instead of skipping. -/
theorem C9_malformed_skipped_but_classifier_error_fatal_witness :
    BinaryClassifierCrawler.message_should_be_skipped (fun t => Except.error ())
        ⟨[1], [], none, [], none, none, true⟩
        ⟨some ['x'], 5, false, 7, 1⟩ none none =
      Except.error () :=
  (C9_malformed_skipped_but_classifier_error_fatal (fun t => Except.error ())
    ⟨[1], [], none, [], none, none, true⟩
    ⟨some ['x'], 5, false, 7, 1⟩ none none).2.2.1 rfl (by decide) rfl

theorem propMatches_iff (extra : List (String × String)) (kv : String × String) :
    propMatches extra kv = true ↔ extra.lookup kv.1 = some kv.2 := by
  unfold propMatches
  cases h : extra.lookup kv.1 with
  | none => simp
  | some v => simp

theorem crawlMatches_iff (c : CrawlRecord) (seed : List Int) (minD maxD : Option Int)
    (nl : Bool) (props : List (String × String)) :
    crawlMatches c seed minD maxD nl props = true ↔
      (c.seed_chats = seed ∧
        pyStrOfStored c.min_date = pyStrOfDate minD ∧
        pyStrOfStored c.max_date = pyStrOfDate maxD ∧
        c.no_labeling_mode = nl ∧
        ∀ kv ∈ props, c.extra.lookup kv.1 = some kv.2) := by
  unfold crawlMatches
  simp only [Bool.and_eq_true, decide_eq_true_eq, beq_iff_eq, List.all_eq_true,
    propMatches_iff]
  tauto

theorem findResume_isSome_iff (seed : List Int) (minD maxD : Option Int) (nl : Bool)
    (props : List (String × String)) :
    ∀ (l : List CrawlRecord) (i : Nat),
      (∃ p, findResume seed minD maxD nl props l i = some p) ↔
        ∃ c ∈ l, crawlMatches c seed minD maxD nl props = true := by
  intro l
  induction l with
  | nil => intro i; simp [findResume]
  | cons c rest ih =>
    intro i
    unfold findResume
    by_cases hc : crawlMatches c seed minD maxD nl props = true
    · rw [if_pos hc]
      simp only [Option.some.injEq]
      constructor
      · intro _; exact ⟨c, List.mem_cons_self c rest, hc⟩
      · intro _; exact ⟨(i, c), rfl⟩
    · rw [if_neg hc]
      rw [ih (i + 1)]
      constructor
      · rintro ⟨cc, hm, hcc⟩
        exact ⟨cc, List.mem_cons_of_mem c hm, hcc⟩
      · rintro ⟨cc, hm, hcc⟩
        rcases List.mem_cons.mp hm with rfl | hmem
        · exact absurd hcc hc
        · exact ⟨cc, hmem, hcc⟩

/-- Claim C7: `retrieve_or_initialize_crawl_state` resumes a stored crawl
exactly when some stored record has an equal seed chat list, date bounds equal
after string normalisation (a None bound matches a stored null, and a stored
serialised date matches the equal caller date), an equal labeling-mode flag and
string-equal strategy-specific properties; on a match the date bounds are
replaced by the caller-supplied values, the index becomes the record's
position, and every other stored field is kept; with no match a fresh state is
created at index `crawls.length` with the seed list as its queue. -/
theorem C7_resume_matching (crawls : List CrawlRecord) (seed : List Int)
    (minD maxD : Option Int) (lm : Bool) (props : List (String × String)) (now : String) :
    (∀ (i : Nat) (c : CrawlRecord),
      findResume seed minD maxD (!lm) props crawls 0 = some (i, c) →
        retrieve_or_initialize_crawl_state crawls seed minD maxD lm props now =
          { index := i, seed_chats := c.seed_chats, min_date := minD, max_date := maxD,
            chats_to_search := c.chats_to_search, chats_searched := c.chats_searched,
            chats_not_searchable := c.chats_not_searchable, started := c.started,
            no_labeling_mode := c.no_labeling_mode, extra := c.extra }) ∧
    (findResume seed minD maxD (!lm) props crawls 0 = none →
      retrieve_or_initialize_crawl_state crawls seed minD maxD lm props now =
        { index := crawls.length, seed_chats := seed, min_date := minD, max_date := maxD,
          chats_to_search := seed, chats_searched := [], chats_not_searchable := none,
          started := now, no_labeling_mode := !lm, extra := props }) ∧
    ((∃ p, findResume seed minD maxD (!lm) props crawls 0 = some p) ↔
      ∃ c ∈ crawls, c.seed_chats = seed ∧
        pyStrOfStored c.min_date = pyStrOfDate minD ∧
        pyStrOfStored c.max_date = pyStrOfDate maxD ∧
        c.no_labeling_mode = (!lm) ∧
        ∀ kv ∈ props, c.extra.lookup kv.1 = some kv.2) ∧
    (pyStrOfStored none = pyStrOfDate none) ∧
    (∀ d : Int, pyStrOfStored (some (toString d)) = pyStrOfDate (some d)) := by
  refine ⟨?_, ?_, ?_, rfl, fun d => rfl⟩
  · intro i c hfind
    simp only [retrieve_or_initialize_crawl_state, hfind]
  · intro hfind
    simp only [retrieve_or_initialize_crawl_state, hfind]
  · rw [findResume_isSome_iff seed minD maxD (!lm) props crawls 0]
    constructor
    · rintro ⟨c, hm, hc⟩
      exact ⟨c, hm, (crawlMatches_iff c seed minD maxD (!lm) props).mp hc⟩
    · rintro ⟨c, hm, hc⟩
      exact ⟨c, hm, (crawlMatches_iff c seed minD maxD (!lm) props).mpr hc⟩

/-- Witness for C7: a stored record with matching seed list, null date bounds,
matching labeling flag and matching keyword property is resumed, its queue,
searched list, start timestamp and extension bag kept and its index set to its
position 0. -/
theorem C7_resume_matching_witness :
    retrieve_or_initialize_crawl_state
        [⟨0, [1, 2], none, none, [2], [1], none, "s0", true, [("keywords", "kws")]⟩]
        [1, 2] none none false [("keywords", "kws")] "now" =
      ⟨0, [1, 2], none, none, [2], [1], none, "s0", true, [("keywords", "kws")]⟩ := by
  have h := (C7_resume_matching
    [⟨0, [1, 2], none, none, [2], [1], none, "s0", true, [("keywords", "kws")]⟩]
    [1, 2] none none false [("keywords", "kws")] "now").1 0
    ⟨0, [1, 2], none, none, [2], [1], none, "s0", true, [("keywords", "kws")]⟩
    (by rfl)
  exact h.trans rfl
